import Mathlib

/-
  Verification development for the crix static analyzer.

  Shallow embedding of the analyzer's driver (Analyzer.cc), static
  configuration tables (Config.h), error-edge flag machinery
  (SecurityChecks.h) and modeled-security-check structures
  (MissingChecks.h), together with proofs of the specified properties.

  Pointers of the analyzed IR (llvm::Value*, llvm::Module*) are modelled
  by natural-number identifiers; std::set / std::map are modelled by
  lists with set-membership semantics.
-/

set_option maxHeartbeats 1000000

/- ------------------------------------------------------------------ -/
/- Definitions: shallow embedding of the analyzer sources             -/
/- ------------------------------------------------------------------ -/

/-- The copy/move-function table built by `SetCopyFuncs` (Config.h,
lines 65-78).  Each entry maps a function name to the tuple recorded by
`make_tuple`; the source's own comment documents the component order as
`<src, dst, size>`.  The tuple components are `int8_t` argument
positions, modelled as `Int`. -/
def SetCopyFuncs : List (String × (Int × Int × Int)) :=
  [ ("memcpy", (1, 0, 2)),
    ("__memcpy", (1, 0, 2)),
    ("llvm.memcpy.p0i8.p0i8.i32", (1, 0, 2)),
    ("llvm.memcpy.p0i8.p0i8.i64", (1, 0, 2)),
    ("strncpy", (1, 0, 2)),
    ("memmove", (1, 0, 2)),
    ("__memmove", (1, 0, 2)),
    ("llvm.memmove.p0i8.p0i8.i32", (1, 0, 2)),
    ("llvm.memmove.p0i8.p0i8.i64", (1, 0, 2)) ]

/-- The built-in default error-handling function names
(`ErrorHandleFN`, Config.h lines 41-58). -/
def ErrorHandleFN : List String :=
  [ "BUG", "BUG_ON", "ASM_BUG", "panic", "ASSERT", "assert",
    "dump_stack", "__warn_printk", "usercopy_warn", "signal_fault",
    "pr_err", "pr_warn", "pr_warning", "pr_alert", "pr_emerg",
    "pr_crit" ]

/-- `SetErrorHandleFuncs` (Config.h lines 25-62).  The configuration
file `configs/err-funcs` is modelled by `Option (List String)`: `none`
when `errfile.is_open()` fails, `some lines` when it opens with the
given newline-delimited lines.  A line is inserted into the set only
when `line.length() > 1`; afterwards every built-in default name is
inserted.  The `set<string>` is modelled as a duplicate-free list via
`List.insert`. -/
def SetErrorHandleFuncs (errfile : Option (List String))
    (ErrorHandleFuncs : List String) : List String :=
  let afterFile :=
    match errfile with
    | none => ErrorHandleFuncs
    | some lines =>
        lines.foldl
          (fun s line => if line.length > 1 then s.insert line else s)
          ErrorHandleFuncs
  ErrorHandleFN.foldl (fun s f => s.insert f) afterFile

/-- One full sweep of a per-module hook over the module list,
or-accumulating the changed bit, as in the `for` loops of
`IterativeModulePass::run` (`again |= doInitialization(...)`).  The
virtual hooks mutate pass/context state, modelled by explicit state
passing: a hook takes a module and the state and returns the new state
together with the changed bit. -/
def sweep {M S : Type} (hook : M → S → S × Bool) (modules : List M)
    (s : S) : S × Bool :=
  modules.foldl (fun p m => let q := hook m p.1; (q.1, p.2 || q.2))
    (s, false)

/-- The `while (again)` fixpoint loop of `IterativeModulePass::run`
around a sweep: repeat full sweeps until one reports no change.  The
C++ loop has no bound; `fuel` makes the model total, `none` standing
for a run that has not converged within `fuel` sweeps. -/
def loopFix {M S : Type} (hook : M → S → S × Bool) (modules : List M) :
    Nat → S → Option S
  | 0, _ => none
  | fuel + 1, s =>
      let p := sweep hook modules s
      if p.2 then loopFix hook modules fuel p.1 else some p.1

/-- The middle loop of `IterativeModulePass::run` counts changed
modules in `unsigned changed` and repeats `while (changed)`.  One sweep
with the counter. -/
def sweepCount {M S : Type} (hook : M → S → S × Bool) (modules : List M)
    (s : S) : S × Nat :=
  modules.foldl
    (fun p m => let q := hook m p.1; (q.1, if q.2 then p.2 + 1 else p.2))
    (s, 0)

/-- The `while (changed)` loop of `IterativeModulePass::run`. -/
def loopFixCount {M S : Type} (hook : M → S → S × Bool)
    (modules : List M) : Nat → S → Option S
  | 0, _ => none
  | fuel + 1, s =>
      let p := sweepCount hook modules s
      if p.2 ≠ 0 then loopFixCount hook modules fuel p.1 else some p.1

/-- `IterativeModulePass::run` (Analyzer.cc lines 62-108): the
initialization loop over `doInitialization` to fixpoint, then the main
loop over `doModulePass` to fixpoint, then the finalization loop over
`doFinalization` to fixpoint. -/
def IterativeModulePass.run {M S : Type}
    (doInitialization doModulePass doFinalization : M → S → S × Bool)
    (modules : List M) (fuel : Nat) (s : S) : Option S :=
  (loopFix doInitialization modules fuel s).bind (fun s1 =>
    (loopFixCount doModulePass modules fuel s1).bind (fun s2 =>
      loopFix doFinalization modules fuel s2))

/-- Observable steps of `main` (Analyzer.cc lines 130-198), in the
order the driver performs them. -/
inductive Event where
  | loadFail (file : String)
  | loadOk (file : String)
  | loadStaticData
  | typeInit
  | callGraph
  | pointerAnalysis
  | securityChecks
  | missingChecks
  | processResults
  | printResults
  deriving DecidableEq, Repr

/-- The module list built by the loading loop of `main` (lines
144-160): for each input file, `parseIRFile` (modelled by the oracle
`parse`) either yields a module, which is pushed with its name, or
`NULL`, in which case the driver reports the error and `continue`s. -/
def loadedModules (parse : String → Option Nat)
    (InputFilenames : List String) : List (Nat × String) :=
  InputFilenames.filterMap
    (fun f => (parse f).map (fun m => (m, f)))

/-- The event recorded by the loading loop for one input file: a
report of the load failure when `parseIRFile` returns `NULL`, the
successful push of the module otherwise. -/
def loadEvent (parse : String → Option Nat) (f : String) : Event :=
  match parse f with
  | none => Event.loadFail f
  | some _ => Event.loadOk f

/-- The event trace of `main` (lines 130-198): the loading loop, then
`LoadStaticData`, the type initializer, `CallGraphPass.run`, the
`SecurityChecksPass` run guarded by the `-sc` flag, and the block
guarded by the `-mc` flag (`PointerAnalysisPass`, `SecurityChecksPass`,
`MissingChecksPass`, `processResults`).  The final
`PrintResults(&GlobalCtx)` call is commented out in the source, so no
`printResults` event is emitted. -/
def mainTrace (parse : String → Option Nat)
    (InputFilenames : List String)
    (SecurityChecks MissingChecks : Bool) : List Event :=
  InputFilenames.map (loadEvent parse)
  ++ [Event.loadStaticData, Event.typeInit, Event.callGraph]
  ++ (if SecurityChecks then [Event.securityChecks] else [])
  ++ (if MissingChecks then
        [Event.pointerAnalysis, Event.securityChecks,
         Event.missingChecks, Event.processResults]
      else [])

/-- `PrintResults` (Analyzer.cc lines 123-128): the result-statistics
report, carrying the `NumSecurityChecks` and `NumCondStatements`
counters of the global context. -/
def PrintResults (NumSecurityChecks NumCondStatements : Nat) :
    List String :=
  [ "############## Result Statistics ##############",
    "# Number of sanity checks: \t\t\t" ++ toString NumSecurityChecks,
    "# Number of conditional statements: \t\t"
      ++ toString NumCondStatements ]

/-- `ErrFlag` constants (SecurityChecks.h lines 14-27). -/
def Must_Return_Err : Nat := 1
def May_Return_Err : Nat := 2
def Reserved_Return1 : Nat := 4
def Reserved_Return2 : Nat := 8
def Must_Handle_Err : Nat := 16
def May_Handle_Err : Nat := 32
def Reserved_Handle1 : Nat := 64
def Reserved_Handle2 : Nat := 128
def Completed_Flag : Nat := 256

/-- The meaningful bits of the integer flag stored per CFG edge in
`EdgeErrMap`, decomposed (the two reserved bits per direction are
never set). -/
structure EdgeFlag where
  retMust : Bool
  retMay : Bool
  hdlMust : Bool
  hdlMay : Bool
  completed : Bool
  deriving DecidableEq, Repr, Fintype

/-- The integer flag word an `EdgeFlag` denotes, assembled from the
source's `ErrFlag` constants. -/
def EdgeFlag.toWord (e : EdgeFlag) : Nat :=
  (if e.retMust then Must_Return_Err else 0) +
  (if e.retMay then May_Return_Err else 0) +
  (if e.hdlMust then Must_Handle_Err else 0) +
  (if e.hdlMay then May_Handle_Err else 0) +
  (if e.completed then Completed_Flag else 0)

/-- Modelled from the spec: the body of
`SecurityChecksPass::updateReturnFlag` lives in SecurityChecks.cc,
which is not among the sources (SecurityChecks.h line 87 only declares
it as "Incorporate newFlag into existing flag").  Per the spec the
return-error classification of the new flag is incorporated into the
existing flag, touching only the return direction, and flags only
escalate (Must subsumes May). -/
def updateReturnFlag (errFlag newFlag : EdgeFlag) : EdgeFlag :=
  { errFlag with
      retMust := errFlag.retMust || newFlag.retMust,
      retMay := errFlag.retMay || newFlag.retMay }

/-- Modelled from the spec: the body of
`SecurityChecksPass::updateHandleFlag` is not among the sources
(declared at SecurityChecks.h line 88); symmetric to
`updateReturnFlag` for the error-handling direction. -/
def updateHandleFlag (errFlag newFlag : EdgeFlag) : EdgeFlag :=
  { errFlag with
      hdlMust := errFlag.hdlMust || newFlag.hdlMust,
      hdlMay := errFlag.hdlMay || newFlag.hdlMay }

/-- Modelled from the spec: the body of
`SecurityChecksPass::mergeFlag` is not among the sources (declared at
SecurityChecks.h line 89).  Per the spec, once `Completed_Flag` is set
the edge's flags are final for the current function pass; otherwise
both directions of the new flag are incorporated. -/
def mergeFlag (errFlag newFlag : EdgeFlag) : EdgeFlag :=
  if errFlag.completed then errFlag
  else updateHandleFlag (updateReturnFlag errFlag newFlag) newFlag

/-- Strength of the error-return classification carried by a flag:
`Must_Return_Err` above `May_Return_Err` above neither. -/
def returnRank (e : EdgeFlag) : Nat :=
  if e.retMust then 2 else if e.retMay then 1 else 0

/-- Strength of the error-handling classification carried by a flag. -/
def handleRank (e : EdgeFlag) : Nat :=
  if e.hdlMust then 2 else if e.hdlMay then 1 else 0

/-- `SCOperator` (MissingChecks.h lines 14-20). -/
inductive SCOperator where
  | ICMP_OTHER
  | ICMP_EQ
  | ICMP_NE
  | ICMP_GT
  | ICMP_LT
  deriving DecidableEq, Repr

/-- `SCCondition` (MissingChecks.h lines 23-31). -/
inductive SCCondition where
  | SCC_OTHER
  | SCC_NULL
  | SCC_ZERO
  | SCC_POS
  | SCC_NEG
  | SCC_CONST
  | SCC_VAR
  deriving DecidableEq, Repr

/-- `ModelSC` (MissingChecks.h lines 34-43).  The `Value *SrcUse`
pointer is modelled by a natural-number identity; `int8_t ArgNo` by an
integer. -/
structure ModelSC where
  SCO : SCOperator
  SCC : SCCondition
  SrcUse : Nat
  ArgNo : Int
  deriving DecidableEq, Repr

/-- `operator<` on `ModelSC` (MissingChecks.h lines 39-42): it compares
only the `SrcUse` field. -/
def ModelSC.lt (MSC1 MSC2 : ModelSC) : Bool :=
  MSC1.SrcUse < MSC2.SrcUse

/-- The equivalence a `std::set<ModelSC>` derives from `operator<`: two
elements are equivalent when neither strictly precedes the other. -/
def ModelSC.equiv (a b : ModelSC) : Bool :=
  !(ModelSC.lt a b) && !(ModelSC.lt b a)

/-- `std::set<ModelSC>::insert`: the element is added only when no
element equivalent to it is already present. -/
def setInsertMSC (s : List ModelSC) (x : ModelSC) : List ModelSC :=
  if s.any (fun y => ModelSC.equiv x y) then s else x :: s

/-- A `set<ModelSC>` built up by repeated insertion, as the check maps
`SrcChecksMap` / `UseChecksMap` are populated. -/
def buildSetMSC (ms : List ModelSC) : List ModelSC :=
  ms.foldl setInsertMSC []

/-- The class-level (`static`) aggregate count maps of
`MissingChecksPass` (MissingChecks.h lines 49-55), restricted to the
per-source checked/unchecked counters; `map<src_t, unsigned>` is
modelled as a total function from source identities that is zero off
its support. -/
structure AggState where
  SrcCheckCount : Nat → Nat
  SrcUncheckCount : Nat → Nat

/-- The state of the static maps at process start (and after an
explicit reset, which no declaration in the sources performs). -/
def AggState.empty : AggState := ⟨fun _ => 0, fun _ => 0⟩

/-- Modelled from the spec: the bodies of `addSrcCheck` /
`addSrcUncheck` (declared at MissingChecks.h lines 114-117, defined in
the absent MissingChecks.cc) record one checked/unchecked
classification for a source into the static count maps. -/
def recordFinding (st : AggState) (f : Nat × Bool) : AggState :=
  if f.2 then
    { st with SrcCheckCount :=
        fun s => if s = f.1 then st.SrcCheckCount s + 1
                 else st.SrcCheckCount s }
  else
    { st with SrcUncheckCount :=
        fun s => if s = f.1 then st.SrcUncheckCount s + 1
                 else st.SrcUncheckCount s }

/-- Modelled from the spec: one whole-pipeline invocation of the
missing-check detector on a fixed program.  The per-run classification
of each discovered source as checked or unchecked is a deterministic
function of the program alone (spec: single-threaded, deterministic
batch analysis), abstracted by the oracle `analyze`; the run folds its
findings into the static maps, which are class-level and are reset by
no constructor or declaration in the sources (the constructor at
MissingChecks.h lines 69-73 only sets `MIdx = 0`). -/
def pipelineRun (analyze : Nat → List (Nat × Bool)) (prog : Nat)
    (st : AggState) : AggState :=
  (analyze prog).foldl recordFinding st

/-- What one completed run exposes: the contents of the count maps
after the run, and the call-graph edge set. -/
structure RunReport where
  srcChecked : Nat → Nat
  srcUnchecked : Nat → Nat
  cgEdges : List (Nat × Nat)

/-- Modelled from the spec: a full pipeline invocation, producing the
run's report and the static-map state it leaves behind.  The call
graph is rebuilt from the program alone (oracle `cg`); the counts are
read off the static maps. -/
def pipelineReport (analyze : Nat → List (Nat × Bool))
    (cg : Nat → List (Nat × Nat)) (prog : Nat) (st : AggState) :
    RunReport × AggState :=
  let st1 := pipelineRun analyze prog st
  (⟨st1.SrcCheckCount, st1.SrcUncheckCount, cg prog⟩, st1)

/- ------------------------------------------------------------------ -/
/- Supporting lemmas                                                  -/
/- ------------------------------------------------------------------ -/

lemma loadEvent_eq_ok (parse : String → Option Nat) (g f : String) :
    loadEvent parse g = Event.loadOk f ↔
      g = f ∧ (parse f).isSome := by
  unfold loadEvent
  cases hp : parse g with
  | none =>
      simp only [Event.loadFail.injEq]
      constructor
      · intro h; cases h
      · rintro ⟨rfl, hs⟩
        rw [hp] at hs
        cases hs
  | some m =>
      simp only [Event.loadOk.injEq]
      constructor
      · rintro rfl
        exact ⟨rfl, by rw [hp]; rfl⟩
      · rintro ⟨rfl, _⟩
        rfl

lemma loadEvent_eq_fail (parse : String → Option Nat) (g f : String) :
    loadEvent parse g = Event.loadFail f ↔
      g = f ∧ parse f = none := by
  unfold loadEvent
  cases hp : parse g with
  | none =>
      simp only [Event.loadFail.injEq]
      constructor
      · rintro rfl
        exact ⟨rfl, hp⟩
      · rintro ⟨rfl, _⟩
        rfl
  | some m =>
      simp only [Event.loadOk.injEq]
      constructor
      · intro h; cases h
      · rintro ⟨rfl, hn⟩
        rw [hp] at hn
        cases hn

/-- Membership after folding plain insertions of a list. -/
lemma mem_foldl_insert (l acc : List String) (s : String) :
    s ∈ l.foldl (fun t f => t.insert f) acc ↔ s ∈ l ∨ s ∈ acc := by
  induction l generalizing acc with
  | nil => simp
  | cons a l ih =>
      simp only [List.foldl_cons, ih, List.mem_insert_iff, List.mem_cons]
      tauto

/-- Membership after folding the length-filtered insertions of the
configuration-file lines. -/
lemma mem_foldl_insert_filtered (lines acc : List String) (s : String) :
    s ∈ lines.foldl
        (fun t line => if line.length > 1 then t.insert line else t) acc
      ↔ (s ∈ lines ∧ s.length > 1) ∨ s ∈ acc := by
  induction lines generalizing acc with
  | nil => simp
  | cons a l ih =>
      simp only [List.foldl_cons, List.mem_cons]
      by_cases ha : a.length > 1
      · simp only [if_pos ha, ih, List.mem_insert_iff]
        constructor
        · rintro (⟨hl, hlen⟩ | (rfl | hacc))
          · exact Or.inl ⟨Or.inr hl, hlen⟩
          · exact Or.inl ⟨Or.inl rfl, ha⟩
          · exact Or.inr hacc
        · rintro (⟨(rfl | hl), hlen⟩ | hacc)
          · exact Or.inr (Or.inl rfl)
          · exact Or.inl ⟨hl, hlen⟩
          · exact Or.inr (Or.inr hacc)
      · simp only [if_neg ha, ih]
        constructor
        · rintro (⟨hl, hlen⟩ | hacc)
          · exact Or.inl ⟨Or.inr hl, hlen⟩
          · exact Or.inr hacc
        · rintro (⟨(rfl | hl), hlen⟩ | hacc)
          · exact absurd hlen ha
          · exact Or.inl ⟨hl, hlen⟩
          · exact Or.inr hacc

/-- Characterization of membership in the error-handling-function table
when the configuration file opened. -/
lemma mem_SetErrorHandleFuncs_some (lines : List String) (s : String) :
    s ∈ SetErrorHandleFuncs (some lines) [] ↔
      (s ∈ lines ∧ s.length > 1) ∨ s ∈ ErrorHandleFN := by
  unfold SetErrorHandleFuncs
  rw [mem_foldl_insert, mem_foldl_insert_filtered]
  simp
  tauto

/-- Characterization of membership in the error-handling-function table
when the configuration file failed to open. -/
lemma mem_SetErrorHandleFuncs_none (s : String) :
    s ∈ SetErrorHandleFuncs none [] ↔ s ∈ ErrorHandleFN := by
  unfold SetErrorHandleFuncs
  rw [mem_foldl_insert]
  simp

/-- When a `while (again)` loop returns, its result is the state left
by a full sweep that reported no change. -/
lemma loopFix_exits_at_fixpoint {M S : Type}
    (hook : M → S → S × Bool) (modules : List M) (fuel : Nat) (s s' : S)
    (h : loopFix hook modules fuel s = some s') :
    ∃ t, sweep hook modules t = (s', false) := by
  induction fuel generalizing s with
  | zero => simp [loopFix] at h
  | succ n ih =>
      rw [loopFix] at h
      by_cases hb : (sweep hook modules s).2
      · rw [if_pos hb] at h
        exact ih _ h
      · rw [if_neg hb] at h
        refine ⟨s, ?_⟩
        have : (sweep hook modules s).1 = s' := by
          simpa using h
        rw [Prod.ext_iff]
        exact ⟨this, by simpa using hb⟩

/-- When the `while (changed)` loop returns, its result is the state
left by a full sweep in which zero modules changed. -/
lemma loopFixCount_exits_at_fixpoint {M S : Type}
    (hook : M → S → S × Bool) (modules : List M) (fuel : Nat) (s s' : S)
    (h : loopFixCount hook modules fuel s = some s') :
    ∃ t, sweepCount hook modules t = (s', 0) := by
  induction fuel generalizing s with
  | zero => simp [loopFixCount] at h
  | succ n ih =>
      rw [loopFixCount] at h
      by_cases hb : (sweepCount hook modules s).2 ≠ 0
      · rw [if_pos hb] at h
        exact ih _ h
      · rw [if_neg hb] at h
        push_neg at hb
        refine ⟨s, ?_⟩
        have : (sweepCount hook modules s).1 = s' := by
          simpa using h
        rw [Prod.ext_iff]
        exact ⟨this, hb⟩

/-- Load events record exactly the outcome of the parse oracle on the
input-file list: `loadOk f` is in the trace iff `f` parsed, and
`loadFail f` is in the trace iff `f` failed to parse. -/
lemma mainTrace_load_events (parse : String → Option Nat)
    (files : List String) (sc mc : Bool) (f : String) :
    (Event.loadOk f ∈ mainTrace parse files sc mc ↔
      f ∈ files ∧ (parse f).isSome) ∧
    (Event.loadFail f ∈ mainTrace parse files sc mc ↔
      f ∈ files ∧ parse f = none) := by
  cases sc <;> cases mc <;>
    simp [mainTrace, loadEvent_eq_ok, loadEvent_eq_fail] <;>
    aesop

/-- Every built-in default error-handling name is longer than one
character. -/
lemma errorHandleFN_long : ∀ d ∈ ErrorHandleFN, 1 < d.length := by
  decide

/-- A load event is always a `loadFail` or a `loadOk` of its file. -/
lemma loadEvent_cases (parse : String → Option Nat) (f : String) :
    loadEvent parse f = Event.loadFail f ∨
      loadEvent parse f = Event.loadOk f := by
  unfold loadEvent
  cases parse f <;> simp

/-- `main` never emits the result-statistics report: the call to
`PrintResults` is commented out (Analyzer.cc line 195). -/
lemma mainTrace_no_printResults (parse : String → Option Nat)
    (files : List String) (sc mc : Bool) :
    Event.printResults ∉ mainTrace parse files sc mc := by
  intro h
  unfold mainTrace at h
  rcases List.mem_append.1 h with h | h
  · rcases List.mem_append.1 h with h | h
    · rcases List.mem_append.1 h with h | h
      · rcases List.mem_map.1 h with ⟨f, _, hf⟩
        rcases loadEvent_cases parse f with he | he <;>
          rw [he] at hf <;> cases hf
      · simp at h
    · cases sc <;> simp at h
  · cases mc <;> simp at h

/-- Membership in the module list built by the loading loop. -/
lemma mem_loadedModules (parse : String → Option Nat)
    (files : List String) (m : Nat) (g : String) :
    (m, g) ∈ loadedModules parse files ↔
      g ∈ files ∧ parse g = some m := by
  unfold loadedModules
  rw [List.mem_filterMap]
  constructor
  · rintro ⟨a, ha, hmap⟩
    cases hp : parse a with
    | none => rw [hp] at hmap; cases hmap
    | some v =>
        rw [hp] at hmap
        simp only [Option.map_some', Option.some.injEq, Prod.mk.injEq]
          at hmap
        rcases hmap with ⟨rfl, rfl⟩
        exact ⟨ha, hp⟩
  · rintro ⟨hg, hp⟩
    exact ⟨g, hg, by rw [hp]; rfl⟩

/-- Pointwise accumulation: folding the findings of one run into any
pre-existing static-map state adds exactly the counts the same run
produces from the empty state. -/
lemma recordFinding_point (st : AggState) (f : Nat × Bool) (s : Nat) :
    (recordFinding st f).SrcCheckCount s =
      st.SrcCheckCount s +
        (recordFinding AggState.empty f).SrcCheckCount s ∧
    (recordFinding st f).SrcUncheckCount s =
      st.SrcUncheckCount s +
        (recordFinding AggState.empty f).SrcUncheckCount s := by
  rcases f with ⟨src, c⟩
  cases c <;> by_cases hs : s = src <;>
    simp [recordFinding, AggState.empty, hs]

/-- Accumulation law for a whole run's worth of findings. -/
lemma foldl_recordFinding_accumulates (l : List (Nat × Bool))
    (st : AggState) (s : Nat) :
    (l.foldl recordFinding st).SrcCheckCount s =
      st.SrcCheckCount s +
        (l.foldl recordFinding AggState.empty).SrcCheckCount s ∧
    (l.foldl recordFinding st).SrcUncheckCount s =
      st.SrcUncheckCount s +
        (l.foldl recordFinding AggState.empty).SrcUncheckCount s := by
  induction l generalizing st with
  | nil => simp [AggState.empty]
  | cons f rest ih =>
      simp only [List.foldl_cons]
      have h1 := ih (recordFinding st f)
      have h2 := ih (recordFinding AggState.empty f)
      have hp := recordFinding_point st f s
      constructor
      · rw [h1.1, h2.1, hp.1]
        omega
      · rw [h1.2, h2.2, hp.2]
        omega

/-- The `std::set` equivalence on `ModelSC` holds exactly when the
`SrcUse` fields agree: the operator, condition and argument-number
fields are ignored by the comparator. -/
lemma ModelSC.equiv_iff (a b : ModelSC) :
    ModelSC.equiv a b = true ↔ a.SrcUse = b.SrcUse := by
  simp only [ModelSC.equiv, ModelSC.lt, Bool.and_eq_true,
    Bool.not_eq_true', decide_eq_false_iff_not, not_lt]
  omega

/-- Inserting preserves pairwise distinctness of `SrcUse`. -/
lemma setInsertMSC_pairwise (s : List ModelSC) (x : ModelSC)
    (h : s.Pairwise (fun a b => a.SrcUse ≠ b.SrcUse)) :
    (setInsertMSC s x).Pairwise (fun a b => a.SrcUse ≠ b.SrcUse) := by
  by_cases hc : s.any (fun y => ModelSC.equiv x y) = true
  · rw [setInsertMSC, if_pos hc]
    exact h
  · rw [setInsertMSC, if_neg hc]
    refine List.Pairwise.cons ?_ h
    intro y hy hxy
    exact hc (List.any_eq_true.2
      ⟨y, hy, (ModelSC.equiv_iff x y).2 hxy⟩)

/-- Folding insertions preserves pairwise distinctness of `SrcUse`. -/
lemma foldl_setInsertMSC_pairwise (ms acc : List ModelSC)
    (h : acc.Pairwise (fun a b => a.SrcUse ≠ b.SrcUse)) :
    (ms.foldl setInsertMSC acc).Pairwise
      (fun a b => a.SrcUse ≠ b.SrcUse) := by
  induction ms generalizing acc with
  | nil => simpa
  | cons x rest ih => exact ih _ (setInsertMSC_pairwise _ _ h)

/- ------------------------------------------------------------------ -/
/- Claim theorems                                                     -/
/- ------------------------------------------------------------------ -/

/-- C1 (counterexample): the claim reads the copy/move table entries in
the order (dst-arg, src-arg, size-arg) and asserts that for memcpy the
recorded destination index is 0 — i.e. that the memcpy entry is
(0, 1, 2).  The table actually records (1, 0, 2), whose first component
is 1, so the claim is false. -/
theorem C1_copy_table_counterexample :
    List.lookup "memcpy" SetCopyFuncs = some ((1 : Int), 0, 2) ∧
    ¬ List.lookup "memcpy" SetCopyFuncs = some ((0 : Int), 1, 2) := by
  decide

/-- C1 (amended): every entry of the copy/move-function table records
the argument positions in the order (src-arg, dst-arg, size-arg) — the
order documented by the source comment — and every entry is (1, 0, 2);
in particular for memcpy the recorded source-argument index (first
component) is 1 and the recorded destination-argument index (second
component) is 0. -/
theorem C1_copy_table_order :
    SetCopyFuncs.map Prod.snd = List.replicate 9 ((1 : Int), 0, 2) ∧
    List.lookup "memcpy" SetCopyFuncs = some ((1 : Int), 0, 2) := by
  decide

/-- C2: whenever `IterativeModulePass::run` returns, it has executed
the initialization phase, then the module-pass phase, then the
finalization phase, in that order, and each phase ended with a full
sweep over every module that reported no change (a fixpoint); the
result is the state left by the final phase's last sweep. -/
theorem C2_run_three_phase_fixpoints {M S : Type}
    (doInitialization doModulePass doFinalization : M → S → S × Bool)
    (modules : List M) (fuel : Nat) (s sFinal : S)
    (h : IterativeModulePass.run doInitialization doModulePass
          doFinalization modules fuel s = some sFinal) :
    ∃ s1 s2,
      loopFix doInitialization modules fuel s = some s1 ∧
      loopFixCount doModulePass modules fuel s1 = some s2 ∧
      loopFix doFinalization modules fuel s2 = some sFinal ∧
      (∃ t, sweep doInitialization modules t = (s1, false)) ∧
      (∃ t, sweepCount doModulePass modules t = (s2, 0)) ∧
      (∃ t, sweep doFinalization modules t = (sFinal, false)) := by
  unfold IterativeModulePass.run at h
  rcases Option.bind_eq_some.1 h with ⟨s1, h1, h⟩
  rcases Option.bind_eq_some.1 h with ⟨s2, h2, h3⟩
  exact ⟨s1, s2, h1, h2, h3,
    loopFix_exits_at_fixpoint _ _ _ _ _ h1,
    loopFixCount_exits_at_fixpoint _ _ _ _ _ h2,
    loopFix_exits_at_fixpoint _ _ _ _ _ h3⟩

/-- Witness for C2 at a concrete pass that never reports change. -/
theorem C2_run_three_phase_fixpoints_witness :
    ∃ s1 s2,
      loopFix (fun (_ : Nat) (t : Nat) => (t, false)) [0] 1 0 = some s1 ∧
      loopFixCount (fun (_ : Nat) (t : Nat) => (t, false)) [0] 1 s1
        = some s2 ∧
      loopFix (fun (_ : Nat) (t : Nat) => (t, false)) [0] 1 s2
        = some 0 ∧
      (∃ t, sweep (fun (_ : Nat) (t : Nat) => (t, false)) [0] t
        = (s1, false)) ∧
      (∃ t, sweepCount (fun (_ : Nat) (t : Nat) => (t, false)) [0] t
        = (s2, 0)) ∧
      (∃ t, sweep (fun (_ : Nat) (t : Nat) => (t, false)) [0] t
        = (0, false)) :=
  C2_run_three_phase_fixpoints _ _ _ [0] 1 0 0 rfl

/-- C3: with missing-check detection enabled, the driver's trace is the
module-loading events, then a middle segment containing the call-graph
build, then pointer analysis, the error-edge classifier, the
missing-check detector and result aggregation, in that exact order at
the end of the trace; neither the detector, pointer analysis nor
result aggregation occurs earlier, so the detector never runs before
the classifier or before the call graph is built. -/
theorem C3_pipeline_order (parse : String → Option Nat)
    (files : List String) (sc : Bool) :
    ∃ mid, mainTrace parse files sc true =
        files.map (loadEvent parse) ++ mid
          ++ [Event.pointerAnalysis, Event.securityChecks,
              Event.missingChecks, Event.processResults] ∧
      Event.callGraph ∈ mid ∧
      Event.missingChecks ∉ files.map (loadEvent parse) ∧
      Event.missingChecks ∉ mid ∧
      Event.pointerAnalysis ∉ mid ∧
      Event.processResults ∉ mid := by
  refine ⟨[Event.loadStaticData, Event.typeInit, Event.callGraph]
      ++ (if sc then [Event.securityChecks] else []),
    ?_, ?_, ?_, ?_, ?_, ?_⟩
  · unfold mainTrace
    cases sc <;> simp
  · simp
  · intro h
    rcases List.mem_map.1 h with ⟨f, _, hf⟩
    rcases loadEvent_cases parse f with he | he <;>
      rw [he] at hf <;> cases hf
  · cases sc <;> simp
  · cases sc <;> simp
  · cases sc <;> simp

/-- C4: a module whose parse fails is reported via a `loadFail`
diagnostic and skipped — no module is registered under its name —
while every other file that parses is still registered, and the
analysis pipeline (here the mandatory call-graph build) still runs. -/
theorem C4_load_failure_skips_unit (parse : String → Option Nat)
    (files : List String) (sc mc : Bool) (f : String)
    (hf : f ∈ files) (hfail : parse f = none) :
    Event.loadFail f ∈ mainTrace parse files sc mc ∧
    (∀ m, (m, f) ∉ loadedModules parse files) ∧
    (∀ g m, g ∈ files → parse g = some m →
       (m, g) ∈ loadedModules parse files) ∧
    Event.callGraph ∈ mainTrace parse files sc mc := by
  refine ⟨?_, ?_, ?_, ?_⟩
  · exact (mainTrace_load_events parse files sc mc f).2.2 ⟨hf, hfail⟩
  · intro m hm
    rcases (mem_loadedModules parse files m f).1 hm with ⟨_, hp⟩
    rw [hfail] at hp
    cases hp
  · intro g m hg hp
    exact (mem_loadedModules parse files m g).2 ⟨hg, hp⟩
  · unfold mainTrace
    cases sc <;> cases mc <;> simp

/-- Witness for C4: the first of two files fails to parse; it is
reported and skipped, the second is registered, and the call-graph
build still runs. -/
theorem C4_load_failure_skips_unit_witness :
    Event.loadFail "bad.bc" ∈
      mainTrace (fun g => if g = "ok.bc" then some 7 else none)
        ["bad.bc", "ok.bc"] true true ∧
    (∀ m, (m, "bad.bc") ∉
      loadedModules (fun g => if g = "ok.bc" then some 7 else none)
        ["bad.bc", "ok.bc"]) ∧
    (∀ g m, g ∈ ["bad.bc", "ok.bc"] →
       (if g = "ok.bc" then some 7 else none) = some m →
       (m, g) ∈ loadedModules
         (fun g => if g = "ok.bc" then some 7 else none)
         ["bad.bc", "ok.bc"]) ∧
    Event.callGraph ∈
      mainTrace (fun g => if g = "ok.bc" then some 7 else none)
        ["bad.bc", "ok.bc"] true true :=
  C4_load_failure_skips_unit
    (fun g => if g = "ok.bc" then some 7 else none)
    ["bad.bc", "ok.bc"] true true "bad.bc" (by decide) (by decide)

/-- C5: edge error flags are monotone — once `Completed_Flag` is set a
merge changes nothing; merging never lowers the return or handle
classification (Must is never regressed to May, May can only escalate);
the per-direction update functions touch only their own direction; and
in the flag word the return flags occupy only the low mask 0xF while
the handle flags occupy only the mask 0xF0, so a word never mixes a
return flag and a handle flag in the same bit positions. -/
theorem C5_flag_monotonicity :
    (∀ e n : EdgeFlag, e.completed = true → mergeFlag e n = e) ∧
    (∀ e n : EdgeFlag,
      returnRank e ≤ returnRank (mergeFlag e n) ∧
      handleRank e ≤ handleRank (mergeFlag e n)) ∧
    (∀ e n : EdgeFlag, e.retMust = true →
      (mergeFlag e n).retMust = true) ∧
    (∀ e n : EdgeFlag, e.hdlMust = true →
      (mergeFlag e n).hdlMust = true) ∧
    (∀ e n : EdgeFlag,
      returnRank e ≤ returnRank (updateReturnFlag e n) ∧
      handleRank e = handleRank (updateReturnFlag e n) ∧
      handleRank e ≤ handleRank (updateHandleFlag e n) ∧
      returnRank e = returnRank (updateHandleFlag e n)) ∧
    (Must_Return_Err &&& 15 = Must_Return_Err ∧
     May_Return_Err &&& 15 = May_Return_Err ∧
     Reserved_Return1 &&& 15 = Reserved_Return1 ∧
     Reserved_Return2 &&& 15 = Reserved_Return2 ∧
     Must_Handle_Err &&& 240 = Must_Handle_Err ∧
     May_Handle_Err &&& 240 = May_Handle_Err ∧
     Reserved_Handle1 &&& 240 = Reserved_Handle1 ∧
     Reserved_Handle2 &&& 240 = Reserved_Handle2 ∧
     Must_Return_Err &&& 240 = 0 ∧ May_Return_Err &&& 240 = 0 ∧
     Must_Handle_Err &&& 15 = 0 ∧ May_Handle_Err &&& 15 = 0 ∧
     Completed_Flag &&& 255 = 0) ∧
    (∀ e : EdgeFlag,
      (EdgeFlag.toWord e &&& 15 ≠ 0 ↔ (e.retMust || e.retMay) = true) ∧
      (EdgeFlag.toWord e &&& 240 ≠ 0 ↔ (e.hdlMust || e.hdlMay) = true) ∧
      (EdgeFlag.toWord e &&& 256 ≠ 0 ↔ e.completed = true)) := by
  decide

/-- Witness for C5: a completed flag is left unchanged by a merge, and
Must flags survive a merge in both directions. -/
theorem C5_flag_monotonicity_witness :
    mergeFlag ⟨false, true, false, false, true⟩
        ⟨true, false, true, false, false⟩ =
      ⟨false, true, false, false, true⟩ ∧
    (mergeFlag ⟨true, false, false, false, false⟩
        ⟨false, true, false, false, false⟩).retMust = true ∧
    (mergeFlag ⟨false, false, true, false, false⟩
        ⟨false, false, false, true, false⟩).hdlMust = true :=
  ⟨C5_flag_monotonicity.1 _ _ rfl,
   C5_flag_monotonicity.2.2.1 _ _ rfl,
   C5_flag_monotonicity.2.2.2.1 _ _ rfl⟩

/-- C6 (counterexample): with the static maps never reset, running the
pipeline twice in the same process on the unchanged program does not
reproduce the first run's counts: on a program with one checked source
the first run reports count 1 and the second run, folding into the
state left behind, reports count 2. -/
theorem C6_rerun_counterexample :
    ((pipelineReport (fun _ => [(0, true)]) (fun _ => []) 0
        AggState.empty).1.srcChecked 0 = 1) ∧
    ((pipelineReport (fun _ => [(0, true)]) (fun _ => []) 0
        (pipelineReport (fun _ => [(0, true)]) (fun _ => []) 0
          AggState.empty).2).1.srcChecked 0 = 2) ∧
    ((pipelineReport (fun _ => [(0, true)]) (fun _ => []) 0
        (pipelineReport (fun _ => [(0, true)]) (fun _ => []) 0
          AggState.empty).2).1.srcChecked 0 ≠
     (pipelineReport (fun _ => [(0, true)]) (fun _ => []) 0
        AggState.empty).1.srcChecked 0) := by
  refine ⟨rfl, rfl, ?_⟩
  decide

/-- C6 (amended): the call-graph edge set a run reports is independent
of whatever the static maps hold, so it is identical across the two
runs; the counts, however, accumulate — a run started on leftover
state reports exactly the leftover counts plus the counts the same run
produces from the empty (reset) state.  Identical counts on the second
run therefore hold exactly when the static maps are reset between
runs. -/
theorem C6_rerun_accumulation (analyze : Nat → List (Nat × Bool))
    (cg : Nat → List (Nat × Nat)) (prog : Nat) (st : AggState) :
    ((pipelineReport analyze cg prog st).1.cgEdges =
      (pipelineReport analyze cg prog AggState.empty).1.cgEdges) ∧
    (∀ s, (pipelineReport analyze cg prog st).1.srcChecked s =
        st.SrcCheckCount s +
          (pipelineReport analyze cg prog AggState.empty).1.srcChecked
            s) ∧
    (∀ s, (pipelineReport analyze cg prog st).1.srcUnchecked s =
        st.SrcUncheckCount s +
          (pipelineReport analyze cg prog
            AggState.empty).1.srcUnchecked s) := by
  refine ⟨rfl, ?_, ?_⟩
  · intro s
    exact (foldl_recordFinding_accumulates (analyze prog) st s).1
  · intro s
    exact (foldl_recordFinding_accumulates (analyze prog) st s).2

/-- C7: the loaded error-handling-function table contains exactly the
configuration-file lines accepted by the loader together with the
built-in default names; when the configuration file cannot be opened,
it contains exactly the built-in default names (loading still
succeeds and yields the defaults). -/
theorem C7_error_table_union (lines : List String) :
    (∀ s, s ∈ SetErrorHandleFuncs (some lines) [] ↔
      (s ∈ lines ∧ s.length > 1) ∨ s ∈ ErrorHandleFN) ∧
    (∀ s, s ∈ SetErrorHandleFuncs none [] ↔ s ∈ ErrorHandleFN) :=
  ⟨fun s => mem_SetErrorHandleFuncs_some lines s,
   fun s => mem_SetErrorHandleFuncs_none s⟩

/-- C8 (counterexample): for a concrete invocation with both flags on
and a successfully loaded input, the driver's trace contains no
`printResults` event — the result-statistics report is not produced,
because the `PrintResults(&GlobalCtx)` call is commented out. -/
theorem C8_report_counterexample :
    Event.printResults ∉
      mainTrace (fun _ => some 0) ["a.bc"] true true := by
  decide

/-- C8 (amended): `PrintResults` is the report carrying the
`NumSecurityChecks` and `NumCondStatements` counters as its second and
third lines, but `main` never invokes it: no driver trace contains a
`printResults` event, so the counters stay exposed only in the global
context. -/
theorem C8_report_not_produced (parse : String → Option Nat)
    (files : List String) (sc mc : Bool) (nsc ncs : Nat) :
    Event.printResults ∉ mainTrace parse files sc mc ∧
    (PrintResults nsc ncs)[1]? =
      some ("# Number of sanity checks: \t\t\t" ++ toString nsc) ∧
    (PrintResults nsc ncs)[2]? =
      some ("# Number of conditional statements: \t\t"
        ++ toString ncs) :=
  ⟨mainTrace_no_printResults parse files sc mc, rfl, rfl⟩

/-- C9: a configuration-file line of length 0 or 1 is silently
discarded — it never enters the error-handling-function table (no
default name is that short either) — while every line of length at
least 2 is added verbatim. -/
theorem C9_line_length_filter (lines : List String) (s : String) :
    (s.length ≤ 1 → s ∉ SetErrorHandleFuncs (some lines) []) ∧
    (s ∈ lines → 2 ≤ s.length →
      s ∈ SetErrorHandleFuncs (some lines) []) := by
  constructor
  · intro hlen hmem
    rcases (mem_SetErrorHandleFuncs_some lines s).1 hmem with
      ⟨_, h2⟩ | h
    · omega
    · have := errorHandleFN_long s h
      omega
  · intro hl hlen
    exact (mem_SetErrorHandleFuncs_some lines s).2
      (Or.inl ⟨hl, by omega⟩)

/-- Witness for C9: from the file lines ["x", "ok"], the
single-character name "x" is dropped and "ok" is added. -/
theorem C9_line_length_filter_witness :
    "x" ∉ SetErrorHandleFuncs (some ["x", "ok"]) [] ∧
    "ok" ∈ SetErrorHandleFuncs (some ["x", "ok"]) [] :=
  ⟨(C9_line_length_filter ["x", "ok"] "x").1 (by decide),
   (C9_line_length_filter ["x", "ok"] "ok").2 (by decide) (by decide)⟩

/-- C10: the `ModelSC` ordering compares only the `SrcUse` field, so
set-equivalence is exactly equality of `SrcUse`; inserting a model
whose `SrcUse` is already represented leaves the set unchanged no
matter how its operator, condition or argument index differ; and every
set built by insertion holds at most one model per distinct `SrcUse`
value. -/
theorem C10_modelsc_srcuse_only :
    (∀ a b : ModelSC,
      (ModelSC.lt a b = true ↔ a.SrcUse < b.SrcUse) ∧
      (ModelSC.equiv a b = true ↔ a.SrcUse = b.SrcUse)) ∧
    (∀ (s : List ModelSC) (x y : ModelSC), y ∈ s →
      y.SrcUse = x.SrcUse → setInsertMSC s x = s) ∧
    (∀ ms : List ModelSC,
      (buildSetMSC ms).Pairwise (fun a b => a.SrcUse ≠ b.SrcUse)) := by
  refine ⟨?_, ?_, ?_⟩
  · intro a b
    exact ⟨by simp [ModelSC.lt], ModelSC.equiv_iff a b⟩
  · intro s x y hy heq
    rw [setInsertMSC, if_pos]
    exact List.any_eq_true.2
      ⟨y, hy, (ModelSC.equiv_iff x y).2 heq.symm⟩
  · intro ms
    exact foldl_setInsertMSC_pairwise ms [] List.Pairwise.nil

/-- Witness for C10: inserting a model with a different operator,
condition and argument index but an already-present `SrcUse` leaves
the set unchanged. -/
theorem C10_modelsc_srcuse_only_witness :
    setInsertMSC [⟨SCOperator.ICMP_EQ, SCCondition.SCC_ZERO, 5, 0⟩]
        ⟨SCOperator.ICMP_NE, SCCondition.SCC_NULL, 5, 1⟩ =
      [⟨SCOperator.ICMP_EQ, SCCondition.SCC_ZERO, 5, 0⟩] :=
  C10_modelsc_srcuse_only.2.1
    [⟨SCOperator.ICMP_EQ, SCCondition.SCC_ZERO, 5, 0⟩]
    ⟨SCOperator.ICMP_NE, SCCondition.SCC_NULL, 5, 1⟩
    ⟨SCOperator.ICMP_EQ, SCCondition.SCC_ZERO, 5, 0⟩
    (by decide) rfl
